import Mathlib

/-!
Verification development for the QuickJS/Unity interop bridge
(`src/Auxiliary~/quickjs-unity/src/quickjs_unity.c`).

The C source is shallowly embedded: each embedded definition carries the
name of the C function it models.  Script-engine (QuickJS) values are
modelled by the inductive `JSValue`; JS numbers are carried by `ℚ` (the
exact values of finite IEEE doubles form a subset of the rationals, and
every operation the bridge performs on them — truncation toward zero,
comparison, equality — acts on that subset exactly as the rational
operations do; NaN and the infinities are outside the model).  C heap
allocation is modelled as always succeeding except where a claim needs
the failure path; C byte buffers are modelled as `List Char`.
-/

-- MARK: Constants (quickjs_unity.c lines 16-18)

def QJS_MAX_CALLBACKS : Nat := 4096

def QJS_EXCEPTION_BUF_SIZE : Nat := 2048

def INT32_MIN : Int := -2147483648

def INT32_MAX : Int := 2147483647

-- MARK: Script-engine values

/-- A QuickJS value as seen through the engine API used by the bridge.
`object` carries the observations the bridge can make of an object:
whether `JS_IsArray` / `JS_IsFunction` hold, its named properties
(`JS_GetPropertyStr`, first binding wins), and the result of the engine's
`JSON.stringify` on it (`none` = stringify failed / returned no string,
e.g. a cyclic structure).  `symbol` stands for the values on which the
engine's string coercion (`JS_ToCString`) throws. -/
inductive JSValue where
  | null
  | undefined
  | bool (b : Bool)
  | number (n : ℚ)
  | string (s : String)
  | symbol (id : Nat)
  | object (isArr : Bool) (isFn : Bool) (props : List (String × JSValue)) (json : Option String)

def JS_IsNull : JSValue → Bool
  | .null => true
  | _ => false

def JS_IsUndefined : JSValue → Bool
  | .undefined => true
  | _ => false

def JS_IsBool : JSValue → Bool
  | .bool _ => true
  | _ => false

def JS_IsNumber : JSValue → Bool
  | .number _ => true
  | _ => false

def JS_IsString : JSValue → Bool
  | .string _ => true
  | _ => false

def JS_IsObject : JSValue → Bool
  | .object _ _ _ _ => true
  | _ => false

def JS_IsArray : JSValue → Bool
  | .object isArr _ _ _ => isArr
  | _ => false

def JS_IsFunction : JSValue → Bool
  | .object _ isFn _ _ => isFn
  | _ => false

/-- `JS_GetPropertyStr` on the property list of an object: the named
property, or `undefined` when absent. -/
def getProp (props : List (String × JSValue)) (name : String) : JSValue :=
  match props.lookup name with
  | some v => v
  | none => .undefined

/-- Truncation toward zero, the behaviour of the C cast `(int32_t)d` /
`(int64_t)d` on an in-range double. -/
def ratTrunc (q : ℚ) : Int :=
  if 0 ≤ q then ⌊q⌋ else ⌈q⌉

/-- Wrap an integer into the signed 32-bit range, the effect of the
engine's ToInt32 coercion. -/
def wrapInt32 (i : Int) : Int :=
  (i + 2147483648) % 4294967296 - 2147483648

/-- Model of the engine's `JS_ToFloat64` (ToNumber coercion).  Numbers,
booleans and null convert as in ECMAScript.  Strings and objects go
through engine-side parsing / ToPrimitive machinery that can yield NaN
(outside the rational carrier) or throw, and symbols always throw; the
model treats all of these as failure.  (`undefined` → NaN likewise; every
call site in the bridge filters `undefined` out first.) -/
def js_ToFloat64 : JSValue → Option ℚ
  | .number n => some n
  | .bool b => some (if b then 1 else 0)
  | .null => some 0
  | _ => none

/-- Model of the engine's `JS_ToInt32` coercion. -/
def js_ToInt32 (v : JSValue) : Option Int :=
  (js_ToFloat64 v).map (fun q => wrapInt32 (ratTrunc q))

/-- Model of the engine's `JS_ToUint32` coercion. -/
def js_ToUint32 (v : JSValue) : Option Nat :=
  (js_ToFloat64 v).map (fun q => ((ratTrunc q) % 4294967296).toNat)

/-- Model of the engine's `JS_ToCString` (ToString coercion).  The exact
rendering of non-string values is engine-side and irrelevant to the
bridge; only success/failure and the identity on strings matter.
Symbols throw (NULL result). -/
def js_ToCString : JSValue → Option String
  | .string s => some s
  | .number n => some (toString n)
  | .bool b => some (cond b ("true") ("false"))
  | .null => some ("null")
  | .undefined => some ("undefined")
  | .symbol _ => none
  | .object _ _ _ _ => some ("[object]")

-- MARK: InteropValue (quickjs_unity.c lines 43-72)

/-- The tagged union `InteropValue`.  The C struct carries one `type`
discriminant, a payload union and an optional `typeHint` string; the
bridge populates `typeHint` only on the color path and reads it only on
the `OBJECT_HANDLE` and `VECTOR4` paths, so only those constructors
carry it.  `vVector3` keeps the fourth float the code writes (always 0). -/
inductive InteropValue where
  | vNull
  | vBool (b : Bool)
  | vInt32 (i : Int)
  | vDouble (d : ℚ)
  | vString (s : String)
  | vObjectHandle (handle : Int) (typeHint : Option String)
  | vInt64 (i : Int)
  | vFloat32 (f : ℚ)
  | vArray (len : Int)
  | vJsonObject (s : String)
  | vVector3 (x y z w : ℚ)
  | vVector4 (x y z w : ℚ) (typeHint : Option String)
deriving DecidableEq

/-- The numeric branch condition of `interop_value_from_js` (line 398):
`d == (double)(int32_t)d && d >= INT32_MIN && d <= INT32_MAX`.
On the rational carrier the equality conjunct holds exactly when `d` is
an integer (for in-range `d` the cast truncates exactly; for out-of-range
`d` the cast result lies in the 32-bit range and so never equals `d`,
whatever value the out-of-range cast takes), so the whole condition is
"integral and within [INT32_MIN, INT32_MAX]". -/
def numFitsInt32 (d : ℚ) : Bool :=
  d.den == 1 && decide (INT32_MIN ≤ d.num) && decide (d.num ≤ INT32_MAX)

-- MARK: Vector detection (quickjs_unity.c lines 238-296)

/-- `try_get_float_prop`: read a property and coerce it to a float.
The C narrowing cast `(float)d` is modelled as the identity on the
rational carrier (the claims under verification concern which detector
fires and where each component lands, not float rounding). -/
def try_get_float_prop (props : List (String × JSValue)) (name : String) : Option ℚ :=
  let val := getProp props name
  if JS_IsUndefined val then none
  else js_ToFloat64 val

/-- `try_convert_vector3`: detect the `{x, y, z[, w]}` pattern. -/
def try_convert_vector3 (props : List (String × JSValue)) : Option InteropValue :=
  match try_get_float_prop props ("x"), try_get_float_prop props ("y"),
        try_get_float_prop props ("z") with
  | some x, some y, some z =>
    match try_get_float_prop props ("w") with
    | some w => some (.vVector4 x y z w none)
    | none => some (.vVector3 x y z 0)
  | _, _, _ => none

/-- `try_convert_color`: detect the `{r, g, b[, a]}` pattern; `a`
defaults to 1. -/
def try_convert_color (props : List (String × JSValue)) : Option InteropValue :=
  match try_get_float_prop props ("r"), try_get_float_prop props ("g"),
        try_get_float_prop props ("b") with
  | some r, some g, some b =>
    some (.vVector4 r g b ((try_get_float_prop props ("a")).getD 1) (some ("color")))
  | _, _, _ => none

-- MARK: Interop conversion (quickjs_unity.c lines 300-427)

/-- `get_array_length`: the `length` property through `JS_ToUint32`;
`none` models the C function returning -1. -/
def get_array_length (props : List (String × JSValue)) : Option Nat :=
  js_ToUint32 (getProp props ("length"))

/-- `try_convert_handle`: the `__csHandle` property as an object handle. -/
def try_convert_handle (props : List (String × JSValue)) : Option InteropValue :=
  let hv := getProp props ("__csHandle")
  if JS_IsUndefined hv || JS_IsNull hv then none
  else
    match js_ToInt32 hv with
    | some h => some (.vObjectHandle h none)
    | none => none

/-- The `__struct` / `__type` marker test of `try_convert_struct`. -/
def has_struct_marker (props : List (String × JSValue)) : Bool :=
  let sv := getProp props ("__struct")
  let tv := getProp props ("__type")
  (!(JS_IsUndefined sv || JS_IsNull sv)) || (!(JS_IsUndefined tv || JS_IsNull tv))

/-- `try_convert_struct`: a marker object is serialised to JSON and sent
as a `STRING` value; a marker object whose serialisation fails falls
through (returns 0), exactly like an unmarked object. -/
def try_convert_struct (props : List (String × JSValue)) (json : Option String) :
    Option InteropValue :=
  if has_struct_marker props then json.map (fun j => .vString j)
  else none

/-- `try_convert_plain_object`: vectors first, then colors, then the
JSON fallback (`JSON_OBJECT`); functions, arrays and handle-carrying
objects are refused. -/
def try_convert_plain_object (isArr isFn : Bool) (props : List (String × JSValue))
    (json : Option String) : Option InteropValue :=
  if isFn then none
  else if isArr then none
  else
    let hv := getProp props ("__csHandle")
    if !(JS_IsUndefined hv || JS_IsNull hv) then none
    else
      match try_convert_vector3 props with
      | some v => some v
      | none =>
        match try_convert_color props with
        | some v => some v
        | none => json.map (fun j => InteropValue.vJsonObject j)

/-- `interop_value_from_js`: script value → `InteropValue` (owning
string copies; `strdup_alloc` is modelled as a succeeding value copy). -/
def interop_value_from_js : JSValue → InteropValue
  | .null => .vNull
  | .undefined => .vNull
  | .bool b => .vBool b
  | .number d => if numFitsInt32 d then .vInt32 d.num else .vDouble d
  | .string s => .vString s
  | .symbol _ => .vNull
  | .object isArr isFn props json =>
    if isArr then .vArray (wrapInt32 ((get_array_length props).getD 0))
    else
      match try_convert_handle props with
      | some r => r
      | none =>
        match try_convert_struct props json with
        | some r => r
        | none =>
          match try_convert_plain_object isArr isFn props json with
          | some r => r
          | none => .vNull

/-- `interop_value_from_js_noalloc`: the zero-allocation variant (lines
715-778).  Strings keep a non-owning reference (value-identical here);
objects are tried only for handle, vector and color shapes — no JSON
fallback; a handle property that fails `JS_ToInt32` leaves `Null`
without trying the vector shapes (the C function returns inside the
`if`). -/
def interop_value_from_js_noalloc : JSValue → InteropValue
  | .null => .vNull
  | .undefined => .vNull
  | .bool b => .vBool b
  | .number d => if numFitsInt32 d then .vInt32 d.num else .vDouble d
  | .string s => .vString s
  | .symbol _ => .vNull
  | .object _ _ props _ =>
    let hv := getProp props ("__csHandle")
    if !(JS_IsUndefined hv || JS_IsNull hv) then
      match js_ToInt32 hv with
      | some h => .vObjectHandle h none
      | none => .vNull
    else
      match try_convert_vector3 props with
      | some v => v
      | none =>
        match try_convert_color props with
        | some v => v
        | none => .vNull

/-- `interop_value_to_js`: `InteropValue` → script value (the reverse
mapping, lines 429-488). -/
def interop_value_to_js : InteropValue → JSValue
  | .vNull => .null
  | .vBool b => .bool b
  | .vInt32 i => .number (i : ℚ)
  | .vInt64 i => .number (i : ℚ)
  | .vFloat32 f => .number f
  | .vDouble d => .number d
  | .vString s => .string s
  | .vObjectHandle h hint =>
    let base := [(("__csHandle" : String), JSValue.number (h : ℚ))]
    match hint with
    | some t =>
      if t.isEmpty then .object false false base none
      else .object false false (base ++ [(("__csType" : String), JSValue.string t)]) none
    | none => .object false false base none
  | .vVector3 x y z _ =>
    .object false false
      [(("x" : String), JSValue.number x), (("y" : String), JSValue.number y),
       (("z" : String), JSValue.number z)] none
  | .vVector4 x y z w hint =>
    if hint = some ("color") then
      .object false false
        [(("r" : String), JSValue.number x), (("g" : String), JSValue.number y),
         (("b" : String), JSValue.number z), (("a" : String), JSValue.number w)] none
    else
      .object false false
        [(("x" : String), JSValue.number x), (("y" : String), JSValue.number y),
         (("z" : String), JSValue.number z), (("w" : String), JSValue.number w)] none
  | .vArray _ => .null
  | .vJsonObject s => .string s

-- MARK: Exception formatting (quickjs_unity.c lines 138-146, 169-203)

/-- An engine exception as observed by `format_exception`: `msg` is the
result of `JS_ToCString` on the exception value (`none` = NULL), `stack`
is the C-string obtained from the `stack` property (`none` = the
property was undefined/null, or its string coercion failed). -/
structure JSException where
  msg : Option (List Char)
  stack : Option (List Char)
deriving DecidableEq

/-- `copy_cstring`: bounded copy into a buffer of `dstSize` bytes —
at most `dstSize - 1` content bytes, the terminator is separate. -/
def copy_cstring (dstSize : Nat) (src : List Char) : List Char :=
  src.take (dstSize - 1)

def unknown_exception_text : List Char := ("Unknown JS exception").data

/-- Branch structure of `format_exception` (lines 182-198): compose
`message\nstack` when both are present, the stack is non-empty and the
combination plus terminator fits the buffer; otherwise prefer the
message; otherwise a non-empty stack; otherwise a fixed placeholder.
The `snprintf` in the fitting branch never truncates because the branch
condition guarantees the fit. -/
def format_exception_body (e : JSException) (outBufSize : Nat) : List Char :=
  match e.msg, e.stack with
  | some m, some st =>
    if 0 < st.length then
      if m.length + 1 + st.length + 1 ≤ outBufSize then m ++ [('\n')] ++ st
      else copy_cstring outBufSize m
    else copy_cstring outBufSize m
  | some m, none => copy_cstring outBufSize m
  | none, some st =>
    if 0 < st.length then copy_cstring outBufSize st
    else copy_cstring outBufSize unknown_exception_text
  | none, none => copy_cstring outBufSize unknown_exception_text

/-- `format_exception`: `none` models a non-positive buffer size
(nothing written, early return at line 170). -/
def format_exception (e : JSException) (outBufSize : Nat) : Option (List Char) :=
  if outBufSize = 0 then none
  else some (format_exception_body e outBufSize)

-- MARK: Callback table (quickjs_unity.c lines 33-41, 537-594, 1034-1064)

/-- The callback-table part of `QjsContext`: slot array, scan cursor,
live count and the (vestigial) free-list head.  Slots are modelled as a
total function on `Nat`; the code only ever touches indices below
`QJS_MAX_CALLBACKS`. -/
structure QjsCallbackState where
  callbacks : Nat → JSValue
  callback_next : Nat
  callback_count : Int
  callback_free_head : Int

/-- The state `qjs_init_callbacks` establishes: every slot `JS_UNDEFINED`,
cursor 0, count 0, free-list head -1. -/
def qjs_init_state : QjsCallbackState :=
  { callbacks := fun _ => .undefined
    callback_next := 0
    callback_count := 0
    callback_free_head := -1 }

/-- `qjs_cleanup_callbacks`: release and clear every slot, reset count
and free-list head (the cursor is left as is). -/
def qjs_cleanup_state (st : QjsCallbackState) : QjsCallbackState :=
  { st with
    callbacks := fun _ => .undefined
    callback_count := 0
    callback_free_head := -1 }

/-- The free-list branch of `js_register_callback` (lines 548-553): a
slot is supplied only when `callback_free_head >= 0`. -/
def freeListSlot (st : QjsCallbackState) : Option Nat :=
  if 0 ≤ st.callback_free_head then some st.callback_free_head.toNat else none

/-- The scan loop of `js_register_callback` (lines 557-564): from offset
`i`, at most `r` further probes, each at `(next + i) % QJS_MAX_CALLBACKS`. -/
def scanLoop (cb : Nat → JSValue) (next : Nat) : Nat → Nat → Option Nat
  | _, 0 => none
  | i, r + 1 =>
    let idx := (next + i) % QJS_MAX_CALLBACKS
    if JS_IsUndefined (cb idx) then some idx else scanLoop cb next (i + 1) r

/-- Forward scan from the cursor, wrapping, over the whole table. -/
def scanFree (cb : Nat → JSValue) (next : Nat) : Option Nat :=
  scanLoop cb next 0 QJS_MAX_CALLBACKS

inductive RegisterError where
  | notFunction
  | tableFull
deriving DecidableEq

/-- `js_register_callback`: refuse non-functions; take the free-list
slot when the head is non-negative (discarding the rest of the list);
otherwise scan forward from the cursor for the first `JS_UNDEFINED`
slot, advancing the cursor past it; store a durable reference and bump
the count; fail when no slot is free. -/
def js_register_callback (st : QjsCallbackState) (fn : JSValue) :
    Except RegisterError Nat × QjsCallbackState :=
  if !(JS_IsFunction fn) then (.error .notFunction, st)
  else
    match freeListSlot st with
    | some s =>
      let st1 := { st with callback_free_head := -1 }
      (.ok s,
        { st1 with
          callbacks := Function.update st1.callbacks s fn
          callback_count := st1.callback_count + 1 })
    | none =>
      match scanFree st.callbacks st.callback_next with
      | none => (.error .tableFull, st)
      | some idx =>
        let st1 := { st with callback_next := (idx + 1) % QJS_MAX_CALLBACKS }
        (.ok idx,
          { st1 with
            callbacks := Function.update st1.callbacks idx fn
            callback_count := st1.callback_count + 1 })

/-- `js_unregister_callback` (the handle already through `JS_ToInt32`):
soft-fail on an out-of-range or already-free handle, otherwise release
the slot.  Returns true only on an actual `Live → Free` transition. -/
def js_unregister_callback (st : QjsCallbackState) (handle : Int) :
    Bool × QjsCallbackState :=
  if handle < 0 ∨ (QJS_MAX_CALLBACKS : Int) ≤ handle then (false, st)
  else if JS_IsUndefined (st.callbacks handle.toNat) then (false, st)
  else
    (true,
      { st with
        callbacks := Function.update st.callbacks handle.toNat JSValue.undefined
        callback_count := st.callback_count - 1 })

/-- The callback-table states reachable from `qjs_init_callbacks` by any
sequence of register / unregister / teardown operations. -/
inductive ReachableCbState : QjsCallbackState → Prop where
  | init : ReachableCbState qjs_init_state
  | register (st : QjsCallbackState) (fn : JSValue) :
      ReachableCbState st → ReachableCbState (js_register_callback st fn).2
  | unregister (st : QjsCallbackState) (h : Int) :
      ReachableCbState st → ReachableCbState (js_unregister_callback st h).2
  | teardown (st : QjsCallbackState) :
      ReachableCbState st → ReachableCbState (qjs_cleanup_state st)

-- MARK: Host-side callback invocation (quickjs_unity.c lines 1173-1222)

inductive QjsErr where
  | ok
  | invalidCtx
  | invalidHandle
  | notFunction
  | outOfMemory
  | exceptionThrown
deriving DecidableEq

/-- The C error codes (`QjsError`, lines 22-29). -/
def qjs_error_code : QjsErr → Int
  | .ok => 0
  | .invalidCtx => -1
  | .invalidHandle => -2
  | .notFunction => -3
  | .outOfMemory => -4
  | .exceptionThrown => -5

/-- What `JS_Call` on a stored script function produces: a value or a
raised exception (as observed by `format_exception`). -/
inductive JSCallResult where
  | ok (v : JSValue)
  | exc (e : JSException)

/-- Observable outcome of `qjs_invoke_callback`: the returned status,
the value written through `outResult` (`none` = left untouched), and
the messages sent to the logging collaborator. -/
structure InvokeCbOut where
  code : QjsErr
  outResult : Option InteropValue
  logged : List (List Char)
deriving DecidableEq

/-- `qjs_invoke_callback`: host calls a registered script callback.
`valid` models `is_valid(instance)`; `callFn` models the engine's
`JS_Call` on the stored function; `logSet` models `g_callbacks.log`
being installed; `allocOk` models the `malloc` of the temporary
`JSValue` argument array.  On an exception the error report is
formatted into a `QJS_EXCEPTION_BUF_SIZE` buffer, sent to the log
collaborator, and `*outResult` is reset to `Null`. -/
def qjs_invoke_callback (st : QjsCallbackState) (valid : Bool) (callbackHandle : Int)
    (args : List InteropValue) (callFn : JSValue → List JSValue → JSCallResult)
    (logSet : Bool) (allocOk : Bool) : InvokeCbOut :=
  if !valid then ⟨.invalidCtx, none, []⟩
  else if callbackHandle < 0 ∨ (QJS_MAX_CALLBACKS : Int) ≤ callbackHandle then
    ⟨.invalidHandle, none, []⟩
  else
    let func := st.callbacks callbackHandle.toNat
    if JS_IsUndefined func || !(JS_IsFunction func) then ⟨.notFunction, none, []⟩
    else if 0 < args.length ∧ !allocOk then ⟨.outOfMemory, none, []⟩
    else
      match callFn func (args.map interop_value_to_js) with
      | .exc e =>
        ⟨.exceptionThrown, some .vNull,
          if logSet then [(format_exception e QJS_EXCEPTION_BUF_SIZE).getD []] else []⟩
      | .ok r => ⟨.ok, some (interop_value_from_js r), []⟩

-- MARK: General invoke path (quickjs_unity.c lines 85-99, 596-690)

/-- `InteropInvokeRequest` as handed to the host invoke collaborator.
`member_name` is an `Option` because the C code passes the raw
`JS_ToCString` result through without a NULL check. -/
structure InteropInvokeRequest where
  type_name : String
  member_name : Option String
  call_kind : Int
  is_static : Int
  target_handle : Int
  args : List InteropValue
deriving DecidableEq

structure InteropInvokeResult where
  return_value : InteropValue
  error_code : Int
  error_msg : Option String

/-- A thrown script-side error, by class. -/
inductive JsThrow where
  | typeError (msg : String)
  | internalError (msg : String)
deriving DecidableEq

/-- `argv[i]` of a variadic C callback (indices past `argc` are never
read by the modelled code thanks to its arity checks). -/
def argAt (argv : List JSValue) (i : Nat) : JSValue :=
  argv.getD i .undefined

/-- Element `i` of a script array, via `JS_GetPropertyUint32`. -/
def getIndex (v : JSValue) (i : Nat) : JSValue :=
  match v with
  | .object _ _ props _ => getProp props (Nat.repr i)
  | _ => .undefined

/-- `get_array_length` applied to a whole value (the caller has already
established `JS_IsArray`). -/
def get_array_length_v (v : JSValue) : Option Nat :=
  match v with
  | .object _ _ props _ => get_array_length props
  | _ => none

/-- `js_cs_invoke` (`__cs_invoke`): the general named-member dispatch.
Returns the request actually handed to the host collaborator (`none` =
dispatch never happened) together with the script-visible result.
`invokeSet` models `g_callbacks.invoke` being installed; the `calloc`
of the argument vector is modelled as succeeding.  Note the C code
checks only `type_name` for NULL — a failed `member_name` conversion is
passed through as NULL. -/
def js_cs_invoke (invokeSet : Bool) (argv : List JSValue)
    (oracle : InteropInvokeRequest → InteropInvokeResult) :
    Option InteropInvokeRequest × Except JsThrow JSValue :=
  if !invokeSet then (none, .error (.internalError ("invoke callback not set")))
  else if argv.length < 5 then (none, .error (.typeError ("cs_invoke requires 5+ args")))
  else
    match js_ToCString (argAt argv 0) with
    | none => (none, .error (.typeError ("typeName must be a string")))
    | some tn =>
      match js_ToInt32 (argAt argv 2), js_ToInt32 (argAt argv 3), js_ToInt32 (argAt argv 4) with
      | some ck, some ist, some th =>
        let mn := js_ToCString (argAt argv 1)
        let dispatch := fun (args : List InteropValue) =>
          let req : InteropInvokeRequest :=
            { type_name := tn, member_name := mn, call_kind := ck, is_static := ist
              target_handle := th, args := args }
          let res := oracle req
          if res.error_code ≠ 0 then
            (some req, Except.error (JsThrow.internalError (res.error_msg.getD ("C# invoke error"))))
          else (some req, Except.ok (interop_value_to_js res.return_value))
        if 5 < argv.length ∧ ¬(JS_IsUndefined (argAt argv 5) || JS_IsNull (argAt argv 5)) = true then
          if !(JS_IsArray (argAt argv 5)) then
            (none, .error (.typeError ("args must be an array")))
          else
            match get_array_length_v (argAt argv 5) with
            | none => (none, .error (.internalError ("failed to get args length")))
            | some len =>
              dispatch ((List.range len).map (fun i => interop_value_from_js (getIndex (argAt argv 5) i)))
        else dispatch []
      | _, _, _ => (none, .error (.typeError ("callKind/isStatic/targetHandle must be ints")))

-- MARK: Zero-allocation invoke path (quickjs_unity.c lines 792-1014)

/-- Outcome of a `__zaInvokeK` entry point: either a thrown error, or a
completed call recording the binding id and argument vector handed to
the zero-alloc collaborator and the script value returned. -/
inductive ZaOutcome where
  | thrown (e : JsThrow)
  | called (bindingId : Int) (args : List InteropValue) (ret : JSValue)

/-- The arity-failure message of `js_za_invokeK`. -/
def za_arity_msg : Nat → String
  | 0 => "__zaInvoke0 requires bindingId"
  | 1 => "__zaInvoke1 requires bindingId + 1 arg"
  | k => "__zaInvoke" ++ Nat.repr k ++ " requires bindingId + " ++ Nat.repr k ++ " args"

/-- `js_za_invokeK` for arity `K` (the nine C entry points
`js_za_invoke0` … `js_za_invoke8` are this definition at `K = 0 … 8`;
they differ only in the fixed arity and message).  Fewer than `K + 1`
script arguments is a caller error; exactly the `K` arguments after the
binding id are converted (non-owning string mode) and excess arguments
are ignored; the collaborator's result is mapped back to a script
value.  `zaSet` models `g_callbacks.zeroalloc` being installed. -/
def js_za_invoke (K : Nat) (zaSet : Bool) (argv : List JSValue)
    (oracle : Int → List InteropValue → InteropValue) : ZaOutcome :=
  if !zaSet then .thrown (.internalError ("zeroalloc callback not set"))
  else if argv.length < K + 1 then .thrown (.typeError (za_arity_msg K))
  else
    match js_ToInt32 (argAt argv 0) with
    | none => .thrown (.typeError ("bindingId must be an integer"))
    | some bid =>
      let args := ((argv.drop 1).take K).map interop_value_from_js_noalloc
      .called bid args (interop_value_to_js (oracle bid args))

-- MARK: Console (quickjs_unity.c lines 512-523, 1066-1078)

/-- `js_console_log`: the single handler behind `console.log`, `warn`,
`error` and `info` (all four bound to it by `qjs_init_console`).
Returns the sequence of calls made to the logging collaborator: one per
argument whose string coercion succeeds, in order; none when the sink
is not installed. -/
def js_console_log (logSet : Bool) (argv : List JSValue) : List String :=
  if !logSet then []
  else argv.filterMap js_ToCString

/-- The four console method names `qjs_init_console` binds to
`js_console_log`. -/
def console_method_names : List String :=
  [("log"), ("warn"), ("error"), ("info")]

-- MARK: Spec-side predicates

/-- The Int32 condition exactly as the claim words it: the value
round-trips through a 32-bit signed integer lying within
`[INT32_MIN, INT32_MAX]`. -/
def specInt32Exact (d : ℚ) : Prop :=
  ∃ k : Int, (k : ℚ) = d ∧ INT32_MIN ≤ k ∧ k ≤ INT32_MAX

-- MARK: Concrete sample data used by witnesses and counterexamples

def vecPropsXYZ : List (String × JSValue) :=
  [(("x" : String), JSValue.number 1), (("y" : String), JSValue.number 2),
   (("z" : String), JSValue.number 3)]

def vecPropsXYZW : List (String × JSValue) :=
  [(("x" : String), JSValue.number 1), (("y" : String), JSValue.number 2),
   (("z" : String), JSValue.number 3), (("w" : String), JSValue.number 4)]

def colPropsRGB : List (String × JSValue) :=
  [(("r" : String), JSValue.number (mkRat 1 10)), (("g" : String), JSValue.number (mkRat 2 10)),
   (("b" : String), JSValue.number (mkRat 3 10))]

def colPropsRGBA : List (String × JSValue) :=
  [(("r" : String), JSValue.number (mkRat 1 10)), (("g" : String), JSValue.number (mkRat 2 10)),
   (("b" : String), JSValue.number (mkRat 3 10)), (("a" : String), JSValue.number (mkRat 5 10))]

def bothVecColProps : List (String × JSValue) :=
  vecPropsXYZ ++ colPropsRGB

/-- A sample script function value. -/
def sampleFn : JSValue := .object false true [] none

/-- A callback-table state with every slot live. -/
def fullCbState : QjsCallbackState :=
  { callbacks := fun _ => sampleFn
    callback_next := 0
    callback_count := (QJS_MAX_CALLBACKS : Int)
    callback_free_head := -1 }

/-- Arguments for `__cs_invoke` whose member name (a symbol) does not
convert to a string. -/
def csArgvBadMember : List JSValue :=
  [JSValue.string ("T"), JSValue.symbol 0, JSValue.number 1, JSValue.number 0, JSValue.number 0]

/-- Arguments for `__cs_invoke` whose type name (a symbol) does not
convert to a string. -/
def csArgvBadType : List JSValue :=
  [JSValue.symbol 3, JSValue.string ("m"), JSValue.number 1, JSValue.number 0, JSValue.number 0]

/-- Arguments for `__cs_invoke` whose args value is present but not an
array. -/
def csArgvNonArrayArgs : List JSValue :=
  [JSValue.string ("T"), JSValue.string ("m"), JSValue.number 1, JSValue.number 0,
   JSValue.number 0, JSValue.number 7]

/-- A host invoke collaborator that always succeeds with `Null`. -/
def okOracle : InteropInvokeRequest → InteropInvokeResult :=
  fun _ => { return_value := .vNull, error_code := 0, error_msg := none }

def sampleException : JSException :=
  { msg := some (("boom").data), stack := some (("trace").data) }

-- MARK: Helper lemmas

/-- The code's numeric branch condition coincides with the spec's
"round-trips through an in-range 32-bit signed integer". -/
theorem numFitsInt32_iff_spec (d : ℚ) : numFitsInt32 d = true ↔ specInt32Exact d := by
  unfold numFitsInt32 specInt32Exact
  simp only [Bool.and_eq_true, beq_iff_eq, decide_eq_true_eq]
  constructor
  · rintro ⟨⟨h1, h2⟩, h3⟩
    exact ⟨d.num, Rat.coe_int_num_of_den_eq_one h1, h2, h3⟩
  · rintro ⟨k, rfl, h2, h3⟩
    refine ⟨⟨Rat.den_intCast k, ?_⟩, ?_⟩ <;> rwa [Rat.num_intCast]

theorem scanLoop_none (cb : Nat → JSValue) (next : Nat)
    (hfull : ∀ j, j < QJS_MAX_CALLBACKS → JS_IsUndefined (cb j) = false) :
    ∀ r i, scanLoop cb next i r = none := by
  intro r
  induction r with
  | zero => intro i; rfl
  | succ r ih =>
    intro i
    have hlt : (next + i) % QJS_MAX_CALLBACKS < QJS_MAX_CALLBACKS :=
      Nat.mod_lt _ (by norm_num [QJS_MAX_CALLBACKS])
    simp only [scanLoop, hfull _ hlt, Bool.false_eq_true, if_false]
    exact ih (i + 1)

theorem scanLoop_unique (cb : Nat → JSValue) (next h : Nat)
    (_hh : h < QJS_MAX_CALLBACKS) (hfree : JS_IsUndefined (cb h) = true)
    (hothers : ∀ j, j < QJS_MAX_CALLBACKS → j ≠ h → JS_IsUndefined (cb j) = false) :
    ∀ r i, (∃ off, off < r ∧ (next + i + off) % QJS_MAX_CALLBACKS = h) →
      scanLoop cb next i r = some h := by
  intro r
  induction r with
  | zero => rintro i ⟨off, hoff, _⟩; omega
  | succ r ih =>
    rintro i ⟨off, hoff, hoffeq⟩
    by_cases hidx : (next + i) % QJS_MAX_CALLBACKS = h
    · simp only [scanLoop, hidx, hfree, if_true]
    · have hlt : (next + i) % QJS_MAX_CALLBACKS < QJS_MAX_CALLBACKS :=
        Nat.mod_lt _ (by norm_num [QJS_MAX_CALLBACKS])
      simp only [scanLoop, hothers _ hlt hidx, Bool.false_eq_true, if_false]
      refine ih (i + 1) ⟨off - 1, ?_, ?_⟩
      · have hoff0 : off ≠ 0 := by
          rintro rfl
          exact hidx (by simpa using hoffeq)
        omega
      · have hoff0 : off ≠ 0 := by
          rintro rfl
          exact hidx (by simpa using hoffeq)
        have : next + (i + 1) + (off - 1) = next + i + off := by omega
        rw [this]
        exact hoffeq

/-- The wrapped offset from the cursor to any in-range slot is hit by
the scan within one pass over the table. -/
theorem scan_offset_exists (next h : Nat) (hh : h < QJS_MAX_CALLBACKS) :
    ∃ off, off < QJS_MAX_CALLBACKS ∧ (next + 0 + off) % QJS_MAX_CALLBACKS = h := by
  refine ⟨(h + QJS_MAX_CALLBACKS - next % QJS_MAX_CALLBACKS) % QJS_MAX_CALLBACKS, ?_, ?_⟩ <;>
    · simp only [QJS_MAX_CALLBACKS] at *
      omega

-- MARK: C1

/-- C1: on the numeric branch, `interop_value_from_js` emits
`Int32(n)` exactly when `n` round-trips through an in-range 32-bit
signed integer and `Double(n)` otherwise; `2.0` becomes `Int32(2)` and
`2.5` becomes `Double(2.5)`; `interop_value_from_js_noalloc` follows
the same rule. -/
theorem C1_numeric_int32_rule (d : ℚ) :
    (interop_value_from_js (JSValue.number d) = InteropValue.vInt32 d.num ↔ specInt32Exact d)
    ∧ (interop_value_from_js (JSValue.number d) = InteropValue.vDouble d ↔ ¬ specInt32Exact d)
    ∧ interop_value_from_js_noalloc (JSValue.number d) = interop_value_from_js (JSValue.number d)
    ∧ interop_value_from_js (JSValue.number 2) = InteropValue.vInt32 2
    ∧ interop_value_from_js (JSValue.number (mkRat 5 2)) = InteropValue.vDouble (mkRat 5 2) := by
  refine ⟨?_, ?_, rfl, by decide, by decide⟩
  · by_cases hfit : numFitsInt32 d = true
    · have hs := (numFitsInt32_iff_spec d).mp hfit
      simp [interop_value_from_js, hfit, hs]
    · have hs : ¬ specInt32Exact d := fun hs => hfit ((numFitsInt32_iff_spec d).mpr hs)
      simp [interop_value_from_js, hfit, hs]
  · by_cases hfit : numFitsInt32 d = true
    · have hs := (numFitsInt32_iff_spec d).mp hfit
      simp [interop_value_from_js, hfit, hs]
    · have hs : ¬ specInt32Exact d := fun hs => hfit ((numFitsInt32_iff_spec d).mpr hs)
      simp [interop_value_from_js, hfit, hs]

/-- Witness for C1 at the concrete inputs 2.0 and 2.5. -/
theorem C1_numeric_int32_rule_witness :
    interop_value_from_js (JSValue.number 2) = InteropValue.vInt32 2
    ∧ specInt32Exact 2
    ∧ interop_value_from_js (JSValue.number (mkRat 5 2)) = InteropValue.vDouble (mkRat 5 2)
    ∧ ¬ specInt32Exact (mkRat 5 2) := by
  refine ⟨(C1_numeric_int32_rule 2).2.2.2.1,
    (C1_numeric_int32_rule 2).1.mp (C1_numeric_int32_rule 2).2.2.2.1,
    (C1_numeric_int32_rule (mkRat 5 2)).2.2.2.2,
    ((C1_numeric_int32_rule (mkRat 5 2)).2.1).mp (C1_numeric_int32_rule (mkRat 5 2)).2.2.2.2⟩

-- MARK: C8

/-- C8: round-trip through the codec preserves primitive values — for
every numeric `d` (on both the Int32 and the Double branch) and every
string `s`, converting to an `InteropValue` and back yields the same
script value (the intermediate value's string payload is the
`strdup_alloc` copy, modelled as an independent value copy). -/
theorem C8_roundtrip_primitives (d : ℚ) (s : String) :
    interop_value_to_js (interop_value_from_js (JSValue.number d)) = JSValue.number d
    ∧ interop_value_to_js (interop_value_from_js (JSValue.string s)) = JSValue.string s := by
  refine ⟨?_, rfl⟩
  by_cases hfit : numFitsInt32 d = true
  · have h1 : d.den = 1 := by
      unfold numFitsInt32 at hfit
      simp only [Bool.and_eq_true, beq_iff_eq] at hfit
      exact hfit.1.1
    simp [interop_value_from_js, hfit, interop_value_to_js,
      Rat.coe_int_num_of_den_eq_one h1]
  · simp [interop_value_from_js, hfit, interop_value_to_js]

-- MARK: C2

/-- C2: for a plain object (not array, function, handle- or
struct-marked): numeric `x`, `y`, `z` properties give `Vector3(x,y,z,0)`
when no numeric `w` is present and `Vector4(x,y,z,w)` with no type hint
when it is; otherwise numeric `r`, `g`, `b` give `Vector4(r,g,b,a)` with
hint "color", `a` defaulting to 1; vector detection runs first, so the
vector conclusions hold whatever `r`, `g`, `b` properties the object
also carries. -/
theorem C2_shape_detection (props : List (String × JSValue)) (json : Option String)
    (hh : getProp props ("__csHandle") = JSValue.undefined)
    (hs : getProp props ("__struct") = JSValue.undefined)
    (ht : getProp props ("__type") = JSValue.undefined) :
    (∀ x y z : ℚ,
      getProp props ("x") = JSValue.number x →
      getProp props ("y") = JSValue.number y →
      getProp props ("z") = JSValue.number z →
      (try_get_float_prop props ("w") = none →
        interop_value_from_js (JSValue.object false false props json)
          = InteropValue.vVector3 x y z 0)
      ∧ (∀ w : ℚ, try_get_float_prop props ("w") = some w →
        interop_value_from_js (JSValue.object false false props json)
          = InteropValue.vVector4 x y z w none))
    ∧ (try_convert_vector3 props = none →
      ∀ r g b : ℚ,
      getProp props ("r") = JSValue.number r →
      getProp props ("g") = JSValue.number g →
      getProp props ("b") = JSValue.number b →
        interop_value_from_js (JSValue.object false false props json)
          = InteropValue.vVector4 r g b ((try_get_float_prop props ("a")).getD 1)
              (some ("color"))) := by
  have hhandle : try_convert_handle props = none := by
    simp [try_convert_handle, hh, JS_IsUndefined]
  have hmark : has_struct_marker props = false := by
    simp [has_struct_marker, hs, ht, JS_IsUndefined]
  have hstruct : try_convert_struct props json = none := by
    simp [try_convert_struct, hmark]
  refine ⟨?_, ?_⟩
  · intro x y z hx hy hz
    have hfx : try_get_float_prop props ("x") = some x := by
      simp [try_get_float_prop, hx, JS_IsUndefined, js_ToFloat64]
    have hfy : try_get_float_prop props ("y") = some y := by
      simp [try_get_float_prop, hy, JS_IsUndefined, js_ToFloat64]
    have hfz : try_get_float_prop props ("z") = some z := by
      simp [try_get_float_prop, hz, JS_IsUndefined, js_ToFloat64]
    constructor
    · intro hw
      have hv3 : try_convert_vector3 props = some (InteropValue.vVector3 x y z 0) := by
        simp [try_convert_vector3, hfx, hfy, hfz, hw]
      simp [interop_value_from_js, hhandle, hstruct, try_convert_plain_object,
        hh, JS_IsUndefined, hv3]
    · intro w hw
      have hv4 : try_convert_vector3 props = some (InteropValue.vVector4 x y z w none) := by
        simp [try_convert_vector3, hfx, hfy, hfz, hw]
      simp [interop_value_from_js, hhandle, hstruct, try_convert_plain_object,
        hh, JS_IsUndefined, hv4]
  · intro hvec r g b hr hg hb
    have hfr : try_get_float_prop props ("r") = some r := by
      simp [try_get_float_prop, hr, JS_IsUndefined, js_ToFloat64]
    have hfg : try_get_float_prop props ("g") = some g := by
      simp [try_get_float_prop, hg, JS_IsUndefined, js_ToFloat64]
    have hfb : try_get_float_prop props ("b") = some b := by
      simp [try_get_float_prop, hb, JS_IsUndefined, js_ToFloat64]
    have hcol : try_convert_color props
        = some (InteropValue.vVector4 r g b ((try_get_float_prop props ("a")).getD 1)
            (some ("color"))) := by
      simp [try_convert_color, hfr, hfg, hfb]
    simp [interop_value_from_js, hhandle, hstruct, try_convert_plain_object,
      hh, JS_IsUndefined, hvec, hcol]

/-- Witness for C2 at the spec's four examples plus an object carrying
both vector and color properties (classified as a vector). -/
theorem C2_shape_detection_witness :
    interop_value_from_js (JSValue.object false false vecPropsXYZ none)
      = InteropValue.vVector3 1 2 3 0
    ∧ interop_value_from_js (JSValue.object false false vecPropsXYZW none)
      = InteropValue.vVector4 1 2 3 4 none
    ∧ interop_value_from_js (JSValue.object false false colPropsRGB none)
      = InteropValue.vVector4 (mkRat 1 10) (mkRat 2 10) (mkRat 3 10) 1 (some ("color"))
    ∧ interop_value_from_js (JSValue.object false false colPropsRGBA none)
      = InteropValue.vVector4 (mkRat 1 10) (mkRat 2 10) (mkRat 3 10) (mkRat 5 10)
          (some ("color"))
    ∧ interop_value_from_js (JSValue.object false false bothVecColProps none)
      = InteropValue.vVector3 1 2 3 0 := by
  refine ⟨((C2_shape_detection vecPropsXYZ none rfl rfl rfl).1 1 2 3 rfl rfl rfl).1 rfl,
    ((C2_shape_detection vecPropsXYZW none rfl rfl rfl).1 1 2 3 rfl rfl rfl).2 4 rfl,
    (C2_shape_detection colPropsRGB none rfl rfl rfl).2 rfl (mkRat 1 10) (mkRat 2 10)
      (mkRat 3 10) rfl rfl rfl,
    (C2_shape_detection colPropsRGBA none rfl rfl rfl).2 rfl (mkRat 1 10) (mkRat 2 10)
      (mkRat 3 10) rfl rfl rfl,
    ((C2_shape_detection bothVecColProps none rfl rfl rfl).1 1 2 3 rfl rfl rfl).1 rfl⟩

theorem isFunction_not_undefined (v : JSValue) (hv : JS_IsFunction v = true) :
    JS_IsUndefined v = false := by
  cases v <;> simp_all [JS_IsFunction, JS_IsUndefined]

/-- C3: with all `QJS_MAX_CALLBACKS` slots live (and the free-list head
at its invariant value -1), the next registration fails with
`TableFull`; after unregistering any one live handle `h`, exactly one
more registration succeeds — it yields the freed slot `h`, found by the
forward scan from the cursor (wrapping) — and the registration after
that fails with `TableFull` again. -/
theorem C3_table_capacity (st : QjsCallbackState) (fn fn2 : JSValue) (h : Nat)
    (hfull : ∀ i, i < QJS_MAX_CALLBACKS → JS_IsUndefined (st.callbacks i) = false)
    (hfh : st.callback_free_head = -1)
    (hfn : JS_IsFunction fn = true) (hfn2 : JS_IsFunction fn2 = true)
    (hhlt : h < QJS_MAX_CALLBACKS) :
    (js_register_callback st fn).1 = Except.error RegisterError.tableFull
    ∧ (js_unregister_callback st (h : Int)).1 = true
    ∧ (js_register_callback (js_unregister_callback st (h : Int)).2 fn).1 = Except.ok h
    ∧ (js_register_callback (js_register_callback
        (js_unregister_callback st (h : Int)).2 fn).2 fn2).1
      = Except.error RegisterError.tableFull := by
  have hfls : freeListSlot st = none := by simp [freeListSlot, hfh]
  have hscan : scanFree st.callbacks st.callback_next = none :=
    scanLoop_none st.callbacks st.callback_next hfull QJS_MAX_CALLBACKS 0
  have hcond : ¬(((h : Nat) : Int) < 0 ∨ ((QJS_MAX_CALLBACKS : Nat) : Int) ≤ ((h : Nat) : Int)) := by
    simp only [QJS_MAX_CALLBACKS] at *
    omega
  have htn : ((h : Nat) : Int).toNat = h := Int.toNat_natCast h
  have hslot : JS_IsUndefined (st.callbacks ((h : Nat) : Int).toNat) = false := by
    rw [htn]
    exact hfull h hhlt
  have hst' : js_unregister_callback st (h : Int)
      = (true,
        { st with
          callbacks := Function.update st.callbacks h JSValue.undefined
          callback_count := st.callback_count - 1 }) := by
    simp only [js_unregister_callback]
    rw [if_neg hcond]
    simp only [hslot, htn]
    simp
    exact hfull h hhlt
  have hfree' : JS_IsUndefined (Function.update st.callbacks h JSValue.undefined h) = true := by
    rw [Function.update_same]
    rfl
  have hothers : ∀ j, j < QJS_MAX_CALLBACKS → j ≠ h →
      JS_IsUndefined (Function.update st.callbacks h JSValue.undefined j) = false := by
    intro j hj hne
    rw [Function.update_noteq hne]
    exact hfull j hj
  have hscan' : scanFree (Function.update st.callbacks h JSValue.undefined) st.callback_next
      = some h :=
    scanLoop_unique _ _ h hhlt hfree' hothers QJS_MAX_CALLBACKS 0
      (scan_offset_exists st.callback_next h hhlt)
  have hreg2 : js_register_callback (js_unregister_callback st (h : Int)).2 fn
      = (Except.ok h,
        { st with
          callbacks := Function.update (Function.update st.callbacks h JSValue.undefined) h fn
          callback_next := (h + 1) % QJS_MAX_CALLBACKS
          callback_count := st.callback_count - 1 + 1 }) := by
    rw [hst']
    simp [js_register_callback, hfn, freeListSlot, hfh, hscan']
  have hfull2 : ∀ i, i < QJS_MAX_CALLBACKS →
      JS_IsUndefined (Function.update st.callbacks h fn i) = false := by
    intro i hi
    by_cases hih : i = h
    · subst hih
      rw [Function.update_same]
      exact isFunction_not_undefined fn hfn
    · rw [Function.update_noteq hih]
      exact hfull i hi
  have hscan2 : scanFree (Function.update st.callbacks h fn)
      ((h + 1) % QJS_MAX_CALLBACKS) = none :=
    scanLoop_none _ _ hfull2 QJS_MAX_CALLBACKS 0
  refine ⟨?_, ?_, ?_, ?_⟩
  · simp [js_register_callback, hfn, hfls, hscan]
  · rw [hst']
  · rw [hreg2]
  · rw [hreg2]
    simp [js_register_callback, hfn2, freeListSlot, hfh, hscan2]

/-- Witness for C3: a concrete fully-live table, handle 0. -/
theorem C3_table_capacity_witness :
    (js_register_callback fullCbState sampleFn).1 = Except.error RegisterError.tableFull
    ∧ (js_unregister_callback fullCbState ((0 : Nat) : Int)).1 = true
    ∧ (js_register_callback (js_unregister_callback fullCbState ((0 : Nat) : Int)).2 sampleFn).1
      = Except.ok 0
    ∧ (js_register_callback (js_register_callback
        (js_unregister_callback fullCbState ((0 : Nat) : Int)).2 sampleFn).2 sampleFn).1
      = Except.error RegisterError.tableFull := by
  exact C3_table_capacity fullCbState sampleFn sampleFn 0 (fun i _ => rfl) rfl rfl rfl
    (by norm_num [QJS_MAX_CALLBACKS])

/-- C10: in every callback-table state reachable from initialization by
register, unregister and teardown operations, the free-list head holds
the empty sentinel -1, so the free-list branch of registration never
supplies a slot and every successful allocation goes through the
forward scan. -/
theorem C10_free_list_inert (st : QjsCallbackState) (hr : ReachableCbState st) :
    st.callback_free_head = -1 ∧ freeListSlot st = none := by
  have key : st.callback_free_head = -1 := by
    induction hr with
    | init => rfl
    | register st' fn _ ih =>
      have hfls : freeListSlot st' = none := by simp [freeListSlot, ih]
      by_cases hfn : JS_IsFunction fn = true
      · cases hscan : scanFree st'.callbacks st'.callback_next with
        | none => simp [js_register_callback, hfn, hfls, hscan, ih]
        | some idx => simp [js_register_callback, hfn, hfls, hscan, ih]
      · have hfn' : JS_IsFunction fn = false := by simpa using hfn
        simp [js_register_callback, hfn', ih]
    | unregister st' hdl _ ih =>
      by_cases h1 : hdl < 0 ∨ ((QJS_MAX_CALLBACKS : Nat) : Int) ≤ hdl
      · simp [js_unregister_callback, h1, ih]
      · by_cases h2 : JS_IsUndefined (st'.callbacks hdl.toNat) = true
        · simp [js_unregister_callback, h1, h2, ih]
        · have h2' : JS_IsUndefined (st'.callbacks hdl.toNat) = false := by simpa using h2
          simp [js_unregister_callback, h1, h2', ih]
    | teardown st' _ ih => simp [qjs_cleanup_state]
  exact ⟨key, by simp [freeListSlot, key]⟩

/-- Witness for C10 at the initial state. -/
theorem C10_free_list_inert_witness :
    qjs_init_state.callback_free_head = -1 ∧ freeListSlot qjs_init_state = none :=
  C10_free_list_inert qjs_init_state ReachableCbState.init

/-- C7: for every exception observation and destination buffer of size
`S > 0`, `format_exception` writes message + newline + stack when both
are present (stack non-empty) and the combination plus terminator fits
`S`; the message alone (truncated to `S - 1`) when they do not fit; the
stack alone when only a non-empty stack is available; the fixed
placeholder when neither is; and the written content always leaves room
for the terminator within `S` bytes. -/
theorem C7_format_exception (e : JSException) (S : Nat) (hS : 0 < S) :
    format_exception e S = some (format_exception_body e S)
    ∧ (format_exception_body e S).length + 1 ≤ S
    ∧ (∀ m st, e.msg = some m → e.stack = some st → 0 < st.length →
        (m.length + 1 + st.length + 1 ≤ S →
          format_exception_body e S = m ++ [('\n')] ++ st)
        ∧ (¬(m.length + 1 + st.length + 1 ≤ S) →
          format_exception_body e S = m.take (S - 1)))
    ∧ (∀ m, e.msg = some m → (e.stack = none ∨ e.stack = some []) →
        format_exception_body e S = m.take (S - 1))
    ∧ (∀ st, e.msg = none → e.stack = some st → 0 < st.length →
        format_exception_body e S = st.take (S - 1))
    ∧ (e.msg = none → (e.stack = none ∨ e.stack = some []) →
        format_exception_body e S = unknown_exception_text.take (S - 1)) := by
  have hS0 : ¬(S = 0) := by omega
  obtain ⟨msg, stack⟩ := e
  refine ⟨by simp [format_exception, hS0], ?_, ?_, ?_, ?_, ?_⟩
  · cases msg with
    | some m =>
      cases stack with
      | some st =>
        by_cases hlen : 0 < st.length
        · by_cases hfit : m.length + 1 + st.length + 1 ≤ S
          · simp only [format_exception_body, hlen, hfit, if_true]
            simp only [List.length_append, List.length_singleton]
            omega
          · simp only [format_exception_body, hlen, hfit, if_true, if_false]
            simp only [copy_cstring, List.length_take]
            omega
        · simp only [format_exception_body, hlen, if_false]
          simp only [copy_cstring, List.length_take]
          omega
      | none =>
        simp only [format_exception_body, copy_cstring, List.length_take]
        omega
    | none =>
      cases stack with
      | some st =>
        by_cases hlen : 0 < st.length
        · simp only [format_exception_body, hlen, if_true, copy_cstring, List.length_take]
          omega
        · simp only [format_exception_body, hlen, if_false, copy_cstring, List.length_take]
          omega
      | none =>
        simp only [format_exception_body, copy_cstring, List.length_take]
        omega
  · rintro m st rfl rfl hlen
    constructor
    · intro hfit
      simp [format_exception_body, hlen, hfit]
    · intro hfit
      simp [format_exception_body, hlen, hfit, copy_cstring]
  · rintro m rfl (rfl | rfl)
    · simp [format_exception_body, copy_cstring]
    · simp [format_exception_body, copy_cstring]
  · rintro st rfl rfl hlen
    simp [format_exception_body, hlen, copy_cstring]
  · rintro rfl (rfl | rfl)
    · simp [format_exception_body, copy_cstring]
    · simp [format_exception_body, copy_cstring]

/-- Witness for C7 at a concrete message/stack pair and the 2048-byte
buffer the bridge uses. -/
theorem C7_format_exception_witness :
    format_exception sampleException 2048
      = some ((("boom").data) ++ [('\n')] ++ (("trace").data))
    ∧ (format_exception_body sampleException 2048).length + 1 ≤ 2048 := by
  obtain ⟨h1, h2, h3, -, -, -⟩ := C7_format_exception sampleException 2048 (by norm_num)
  have hcase := (h3 (("boom").data) (("trace").data) rfl rfl (by decide)).1 (by decide)
  exact ⟨by rw [h1, hcase], h2⟩

/-- C4: on a valid instance, `qjs_invoke_callback` fails with
`InvalidHandle` for a handle outside `[0, QJS_MAX_CALLBACKS)`, with
`NotFunction` when the slot is free (`JS_UNDEFINED`) or holds a
non-callable, and when the called script function raises an exception
the call fails with `ExceptionThrown`, the formatted exception is
reported through the logging collaborator, and the output result is
reset to `Null`. -/
theorem C4_invoke_callback_errors (st : QjsCallbackState) (hdl : Int)
    (args : List InteropValue) (callFn : JSValue → List JSValue → JSCallResult)
    (allocOk : Bool) :
    (hdl < 0 ∨ ((QJS_MAX_CALLBACKS : Nat) : Int) ≤ hdl →
      qjs_invoke_callback st true hdl args callFn true allocOk
        = ⟨.invalidHandle, none, []⟩)
    ∧ (¬(hdl < 0 ∨ ((QJS_MAX_CALLBACKS : Nat) : Int) ≤ hdl) →
      (JS_IsUndefined (st.callbacks hdl.toNat)
        || !(JS_IsFunction (st.callbacks hdl.toNat))) = true →
      qjs_invoke_callback st true hdl args callFn true allocOk
        = ⟨.notFunction, none, []⟩)
    ∧ (∀ e : JSException, ¬(hdl < 0 ∨ ((QJS_MAX_CALLBACKS : Nat) : Int) ≤ hdl) →
      JS_IsFunction (st.callbacks hdl.toNat) = true →
      (0 < args.length → allocOk = true) →
      callFn (st.callbacks hdl.toNat) (args.map interop_value_to_js) = .exc e →
      qjs_invoke_callback st true hdl args callFn true allocOk
        = ⟨.exceptionThrown, some .vNull,
           [format_exception_body e QJS_EXCEPTION_BUF_SIZE]⟩) := by
  refine ⟨?_, ?_, ?_⟩
  · intro hrange
    simp only [qjs_invoke_callback, Bool.not_true, Bool.false_eq_true, if_false]
    rw [if_pos hrange]
  · intro hrange hnf
    simp only [qjs_invoke_callback, Bool.not_true, Bool.false_eq_true, if_false]
    rw [if_neg hrange]
    simp only [hnf, if_true]
  · intro e hrange hfn halloc hcall
    have hund : JS_IsUndefined (st.callbacks hdl.toNat) = false :=
      isFunction_not_undefined _ hfn
    have hnoalloc : ¬(0 < args.length ∧ (!allocOk) = true) := by
      rintro ⟨hpos, hna⟩
      rw [halloc hpos] at hna
      simp at hna
    simp only [qjs_invoke_callback, Bool.not_true, Bool.false_eq_true, if_false]
    rw [if_neg hrange]
    simp only [hund, hfn, Bool.not_true, Bool.or_false, Bool.false_eq_true, if_false]
    rw [if_neg hnoalloc, hcall]
    simp [format_exception, QJS_EXCEPTION_BUF_SIZE]

/-- Witness for C4: out-of-range handle 4096, an empty slot, and an
exception-raising callback at slot 0 of a full table. -/
theorem C4_invoke_callback_errors_witness :
    qjs_invoke_callback qjs_init_state true ((4096 : Nat) : Int) []
        (fun _ _ => JSCallResult.ok JSValue.null) true true
      = ⟨.invalidHandle, none, []⟩
    ∧ qjs_invoke_callback qjs_init_state true ((0 : Nat) : Int) []
        (fun _ _ => JSCallResult.ok JSValue.null) true true
      = ⟨.notFunction, none, []⟩
    ∧ qjs_invoke_callback fullCbState true ((0 : Nat) : Int) []
        (fun _ _ => JSCallResult.exc sampleException) true true
      = ⟨.exceptionThrown, some .vNull,
         [format_exception_body sampleException QJS_EXCEPTION_BUF_SIZE]⟩ := by
  refine ⟨(C4_invoke_callback_errors qjs_init_state _ [] _ true).1 ?_,
    ((C4_invoke_callback_errors qjs_init_state _ [] _ true).2.1 ?_ ?_),
    ((C4_invoke_callback_errors fullCbState _ [] _ true).2.2 sampleException ?_ ?_ ?_ ?_)⟩
  · right
    norm_num [QJS_MAX_CALLBACKS]
  · norm_num [QJS_MAX_CALLBACKS]
  · rfl
  · norm_num [QJS_MAX_CALLBACKS]
  · rfl
  · intro h
    simp at h
  · rfl


/-- C5 counterexample: in `csArgvBadMember` the member-name argument (a
symbol) does not convert to a string, yet `__cs_invoke` does not fail
with a TypeError before dispatch — the request is dispatched (with a
null member name) and the call completes. -/
theorem C5_member_name_counterexample :
    js_ToCString (argAt csArgvBadMember 1) = none
    ∧ (js_cs_invoke true csArgvBadMember okOracle).1
      = some { type_name := ("T"), member_name := none, call_kind := 1, is_static := 0,
               target_handle := 0, args := [] }
    ∧ (js_cs_invoke true csArgvBadMember okOracle).2 = Except.ok JSValue.null :=
  ⟨rfl, rfl, rfl⟩

/-- C5 (amended): the type name is mandatory — a call whose type name
does not convert to a string fails with a TypeError-class caller error
before dispatch — and a present, non-null, non-array args value fails
with a TypeError-class caller error before dispatch; the member name is
not validated: when its conversion fails the request is dispatched with
a null member name. -/
theorem C5_cs_invoke_validation (argv : List JSValue)
    (oracle : InteropInvokeRequest → InteropInvokeResult)
    (h5 : 5 ≤ argv.length) :
    (js_ToCString (argAt argv 0) = none →
      js_cs_invoke true argv oracle
        = (none, .error (.typeError ("typeName must be a string"))))
    ∧ (∀ tn ck ist th,
      js_ToCString (argAt argv 0) = some tn →
      js_ToInt32 (argAt argv 2) = some ck →
      js_ToInt32 (argAt argv 3) = some ist →
      js_ToInt32 (argAt argv 4) = some th →
      (5 < argv.length → JS_IsUndefined (argAt argv 5) = false →
        JS_IsNull (argAt argv 5) = false → JS_IsArray (argAt argv 5) = false →
        js_cs_invoke true argv oracle
          = (none, .error (.typeError ("args must be an array"))))
      ∧ (js_ToCString (argAt argv 1) = none → argv.length = 5 →
        (js_cs_invoke true argv oracle).1
          = some { type_name := tn, member_name := none, call_kind := ck, is_static := ist,
                   target_handle := th, args := [] })) := by
  have hlen : ¬(argv.length < 5) := by omega
  constructor
  · intro htn
    simp [js_cs_invoke, hlen, htn]
  · intro tn ck ist th htn hck hist hth
    constructor
    · intro hgt hu hn harr
      have hcond : 5 < argv.length
          ∧ JS_IsUndefined (argAt argv 5) = false ∧ JS_IsNull (argAt argv 5) = false :=
        ⟨hgt, hu, hn⟩
      simp [js_cs_invoke, hlen, htn, hck, hist, hth, hcond, harr]
    · intro hmn hexact
      have hcond : ¬(5 < argv.length
          ∧ JS_IsUndefined (argAt argv 5) = false ∧ JS_IsNull (argAt argv 5) = false) := by
        rintro ⟨hgt, -⟩
        omega
      simp [js_cs_invoke, hlen, htn, hck, hist, hth, hmn, hcond]
      split <;> rfl

/-- Witness for C5 (amended) at three concrete argument vectors. -/
theorem C5_cs_invoke_validation_witness :
    js_cs_invoke true csArgvBadType okOracle
      = (none, .error (.typeError ("typeName must be a string")))
    ∧ js_cs_invoke true csArgvNonArrayArgs okOracle
      = (none, .error (.typeError ("args must be an array")))
    ∧ (js_cs_invoke true csArgvBadMember okOracle).1
      = some { type_name := ("T"), member_name := none, call_kind := 1, is_static := 0,
               target_handle := 0, args := [] } := by
  refine ⟨(C5_cs_invoke_validation csArgvBadType okOracle (by decide)).1 rfl,
    ((C5_cs_invoke_validation csArgvNonArrayArgs okOracle (by decide)).2 ("T") 1 0 0
      rfl rfl rfl rfl).1 (by decide) rfl rfl rfl,
    ((C5_cs_invoke_validation csArgvBadMember okOracle (by decide)).2 ("T") 1 0 0
      rfl rfl rfl rfl).2 rfl rfl⟩

/-- C6: each `__zaInvokeK` entry point (K = 0..8) fails with a
TypeError-class caller error when given fewer than `K + 1` script
arguments (binding id plus `K` arguments); with at least `K + 1`
arguments (and a convertible binding id) the call proceeds, converting
exactly the first `K` arguments after the binding id; the outcome
depends only on the first `K + 1` arguments, so excess arguments are
ignored. -/
theorem C6_za_invoke_arity (K : Nat) (hK : K ≤ 8) (argv : List JSValue)
    (oracle : Int → List InteropValue → InteropValue) :
    (argv.length < K + 1 →
      js_za_invoke K true argv oracle = .thrown (.typeError (za_arity_msg K)))
    ∧ (∀ bid : Int, K + 1 ≤ argv.length →
      js_ToInt32 (argAt argv 0) = some bid →
      js_za_invoke K true argv oracle
        = .called bid (((argv.drop 1).take K).map interop_value_from_js_noalloc)
            (interop_value_to_js
              (oracle bid (((argv.drop 1).take K).map interop_value_from_js_noalloc))))
    ∧ (∀ argv' : List JSValue, K + 1 ≤ argv.length → K + 1 ≤ argv'.length →
      argv'.take (K + 1) = argv.take (K + 1) →
      js_za_invoke K true argv' oracle = js_za_invoke K true argv oracle) := by
  refine ⟨?_, ?_, ?_⟩
  · intro hshort
    simp [js_za_invoke, hshort]
  · intro bid hlong hbid
    have hlen : ¬(argv.length < K + 1) := by omega
    simp [js_za_invoke, hlen, hbid]
  · intro argv' hlong hlong' htake
    have h0 : argAt argv' 0 = argAt argv 0 := by
      have e1 : (argv'.take (K + 1))[0]? = (argv.take (K + 1))[0]? := by rw [htake]
      rw [List.getElem?_take, if_pos (by omega : 0 < K + 1)] at e1
      rw [List.getElem?_take, if_pos (by omega : 0 < K + 1)] at e1
      simp only [argAt, List.getD_eq_getElem?_getD, e1]
    have hargs : (argv'.drop 1).take K = (argv.drop 1).take K := by
      have e1 : (argv'.take (K + 1)).drop 1 = (argv.take (K + 1)).drop 1 := by rw [htake]
      rw [List.drop_take, List.drop_take] at e1
      simpa using e1
    have hlen : ¬(argv.length < K + 1) := by omega
    have hlen' : ¬(argv'.length < K + 1) := by omega
    simp only [js_za_invoke, hlen, hlen', if_false, h0, hargs, Bool.not_true,
      Bool.false_eq_true]

/-- Witness for C6 at K = 3 with too few, exactly enough, and excess
arguments. -/
theorem C6_za_invoke_arity_witness :
    js_za_invoke 3 true [JSValue.number 9] (fun _ _ => InteropValue.vNull)
      = ZaOutcome.thrown (.typeError (za_arity_msg 3))
    ∧ js_za_invoke 3 true
        [JSValue.number 9, JSValue.number 1, JSValue.null, JSValue.bool true]
        (fun _ _ => InteropValue.vNull)
      = ZaOutcome.called 9 [InteropValue.vInt32 1, InteropValue.vNull, InteropValue.vBool true]
          JSValue.null
    ∧ js_za_invoke 3 true
        [JSValue.number 9, JSValue.number 1, JSValue.null, JSValue.bool true, JSValue.number 5]
        (fun _ _ => InteropValue.vNull)
      = js_za_invoke 3 true
          [JSValue.number 9, JSValue.number 1, JSValue.null, JSValue.bool true]
          (fun _ _ => InteropValue.vNull) := by
  refine ⟨(C6_za_invoke_arity 3 (by norm_num) [JSValue.number 9] _).1 (by decide), ?_, ?_⟩
  · exact ((C6_za_invoke_arity 3 (by norm_num)
      [JSValue.number 9, JSValue.number 1, JSValue.null, JSValue.bool true] _).2.1 9
      (by decide) rfl)
  · exact ((C6_za_invoke_arity 3 (by norm_num)
      [JSValue.number 9, JSValue.number 1, JSValue.null, JSValue.bool true] _).2.2
      [JSValue.number 9, JSValue.number 1, JSValue.null, JSValue.bool true, JSValue.number 5]
      (by decide) (by decide) rfl)

theorem console_filterMap_total (l : List JSValue)
    (hconv : ∀ v ∈ l, (js_ToCString v).isSome = true) :
    (l.filterMap js_ToCString).length = l.length
    ∧ (∀ i : Nat, i < l.length →
      some ((l.filterMap js_ToCString).getD i ("")) = js_ToCString (l.getD i JSValue.undefined)) := by
  induction l with
  | nil => exact ⟨rfl, fun i hi => absurd hi (by simp)⟩
  | cons v t ih =>
    obtain ⟨s, hs⟩ : ∃ s, js_ToCString v = some s :=
      Option.isSome_iff_exists.mp (hconv v (List.mem_cons_self v t))
    obtain ⟨ih1, ih2⟩ := ih (fun w hw => hconv w (List.mem_cons_of_mem v hw))
    constructor
    · simp [List.filterMap_cons, hs, ih1]
    · intro i hi
      cases i with
      | zero => simp [List.filterMap_cons, hs]
      | succ j =>
        have hj : j < t.length := by simpa using hi
        simpa [List.filterMap_cons, hs] using ih2 j hj

/-- C9 counterexample: a single `console.log` invocation with two
arguments produces two calls to the logging collaborator, not one (and
a zero-argument invocation produces none). -/
theorem C9_console_counterexample :
    js_console_log true [JSValue.string ("a"), JSValue.string ("b")] = [("a"), ("b")]
    ∧ (js_console_log true [JSValue.string ("a"), JSValue.string ("b")]).length = 2
    ∧ js_console_log true [] = [] :=
  ⟨rfl, rfl, rfl⟩

/-- C9 (amended): each variadic argument is stringified and forwarded
to the logging collaborator in its own call — one call per argument
whose string coercion succeeds, in argument order, not batched; nothing
is forwarded when the sink is not installed. -/
theorem C9_console_forwarding (argv : List JSValue)
    (hconv : ∀ v ∈ argv, (js_ToCString v).isSome = true) :
    (js_console_log true argv).length = argv.length
    ∧ (∀ i : Nat, i < argv.length →
      some ((js_console_log true argv).getD i ("")) = js_ToCString (argv.getD i JSValue.undefined))
    ∧ js_console_log false argv = [] := by
  obtain ⟨h1, h2⟩ := console_filterMap_total argv hconv
  exact ⟨h1, h2, rfl⟩

/-- Witness for C9 (amended) at a two-argument invocation. -/
theorem C9_console_forwarding_witness :
    (js_console_log true [JSValue.string ("a"), JSValue.string ("b")]).length = 2
    ∧ some ((js_console_log true [JSValue.string ("a"), JSValue.string ("b")]).getD 0 (""))
      = js_ToCString (JSValue.string ("a")) := by
  obtain ⟨h1, h2, -⟩ := C9_console_forwarding
    [JSValue.string ("a"), JSValue.string ("b")] (by decide)
  exact ⟨h1, h2 0 (by decide)⟩
